import Mathlib

/-!
Verification of the keycloak-auth-template backend-for-frontend.

This file gives a shallow embedding, in Lean 4, of the role-extraction,
permission-mapping, access-level aggregation, session-token, password-reset
and profile-store logic of the repository (src/role_management.py,
src/auth.py, src/main.py, src/user_service.py, src/db_models.py), and
proves or refutes the specification's claims about it.

Conventions of the embedding:
- Python dicts with a fixed literal key set become Lean structures or
  literal association lists (Python dict.get with a default becomes an
  association-list lookup with a default).
- Python lists become Lean lists; Python for-loops that append become
  filter/map/fold compositions preserving iteration order.
- Python sets are represented by de-duplicating list accumulation; the
  claims only ever inspect membership, which is order-insensitive.
- Times are integers (seconds); `now` is passed explicitly.
-/

namespace KeycloakAuth

/-- Association-list lookup with decidable key equality.  This models
Python `dict.get(key)`: the first (here: unique) binding for the key, or
`none`.  Used for the role-permission and role-description tables and for
reading flags out of the access-level dictionaries. -/
def lookupKey {α β : Type} [DecidableEq α] (a : α) : List (α × β) → Option β
  | [] => none
  | (k, v) :: t => if k = a then some v else lookupKey a t

/-- Enum `RoleType` from src/role_management.py (enum with values "realm" and
"client"). -/
inductive RoleType where
  | REALM
  | CLIENT
deriving DecidableEq, Repr

/-- Model `UserRole`: the pydantic model from src/role_management.py: a role name, its
scope, the owning client for client roles, the mapped permissions and a
human-readable description. -/
structure UserRole where
  name : String
  type : RoleType
  client_id : Option String := none
  permissions : List String := []
  description : Option String := none
deriving DecidableEq, Repr

/-- Model `RolePermissions`: the pydantic model from src/role_management.py: the roles,
the flattened permission list, and the boolean access-level flags (a Python
dict with string keys, modelled as an association list). -/
structure RolePermissions where
  roles : List UserRole
  permissions : List String
  access_levels : List (String × Bool)
deriving DecidableEq, Repr

/-- The `ROLE_PERMISSIONS` dict literal of `get_role_permissions` in
src/role_management.py, keyed by (role name, role type). -/
def ROLE_PERMISSIONS : List ((String × RoleType) × List String) :=
  [(("user", RoleType.REALM),
    ["profile:read", "profile:update", "preferences:read", "preferences:update"]),
   (("admin", RoleType.REALM),
    ["profile:read", "profile:update", "preferences:read", "preferences:update",
     "users:read", "users:manage", "system:admin"]),
   (("moderator", RoleType.REALM),
    ["profile:read", "profile:update", "preferences:read", "preferences:update",
     "content:moderate", "users:read"]),
   (("dashboard-user", RoleType.CLIENT),
    ["dashboard:read", "analytics:view"]),
   (("dashboard-admin", RoleType.CLIENT),
    ["dashboard:read", "dashboard:manage", "analytics:view", "analytics:export"]),
   (("api-consumer", RoleType.CLIENT),
    ["api:read", "api:write"])]

/-- Function `get_role_permissions` from src/role_management.py:
`ROLE_PERMISSIONS.get((role_name, role_type), [])`.  The `client_id`
argument is accepted and ignored by the lookup, exactly as in the source
(the dict is keyed only by name and type). -/
def get_role_permissions (role_name : String) (role_type : RoleType)
    (client_id : Option String := none) : List String :=
  (lookupKey (role_name, role_type) ROLE_PERMISSIONS).getD []

/-- ASCII model of Python `str.title()` as used by `get_role_description`:
an alphabetic character is upper-cased when the previous character is not
alphabetic and lower-cased otherwise; other characters are kept and reset
the word boundary.  (All role names in this repository are ASCII.) -/
def isAsciiLetter (c : Char) : Bool :=
  ('a' ≤ c && c ≤ 'z') || ('A' ≤ c && c ≤ 'Z')

/-- Character-list worker for `pyTitle`; the boolean records whether the
previous character was alphabetic. -/
def pyTitleAux : Bool → List Char → List Char
  | _, [] => []
  | prevAlpha, c :: t =>
    if isAsciiLetter c then
      (if prevAlpha then c.toLower else c.toUpper) :: pyTitleAux true t
    else
      c :: pyTitleAux false t

/-- Python `str.title()` (ASCII fragment). -/
def pyTitle (s : String) : String :=
  String.mk (pyTitleAux false s.data)

/-- The `ROLE_DESCRIPTIONS` dict literal of `get_role_description` in
src/role_management.py. -/
def ROLE_DESCRIPTIONS : List ((String × RoleType) × String) :=
  [(("user", RoleType.REALM), "Standard user with basic access"),
   (("admin", RoleType.REALM), "System administrator with full access"),
   (("moderator", RoleType.REALM), "Content moderator with limited admin access"),
   (("dashboard-user", RoleType.CLIENT), "Dashboard user with read access"),
   (("dashboard-admin", RoleType.CLIENT), "Dashboard administrator"),
   (("api-consumer", RoleType.CLIENT), "API access for external integrations")]

/-- Function `get_role_description` from src/role_management.py:
`ROLE_DESCRIPTIONS.get((role_name, role_type), f"... role")` where the
fallback interpolates `role_name.title()`. -/
def get_role_description (role_name : String) (role_type : RoleType) : String :=
  (lookupKey (role_name, role_type) ROLE_DESCRIPTIONS).getD (pyTitle role_name ++ " role")

/-- One `realm_access` / client-access block of a Keycloak introspection
payload: a dict that may or may not carry a "roles" key
(`block.get("roles", [])` in the source becomes `roles.getD []`). -/
structure AccessBlock where
  roles : Option (List String)
deriving DecidableEq, Repr

/-- A Keycloak token-introspection payload as read by the repository:
an optional `realm_access` block and an optional `resource_access` dict
mapping client ids to access blocks (modelled as an association list in
iteration order). -/
structure TokenInfo where
  realm_access : Option AccessBlock := none
  resource_access : Option (List (String × AccessBlock)) := none
deriving DecidableEq, Repr

/-- The literal realm-role denylist repeated in `extract_detailed_roles`
(src/role_management.py line 44) and `authenticate_user` (src/auth.py line
146): `["default-roles-master", "offline_access", "uma_authorization"]`. -/
def realmRoleDenylist : List String :=
  ["default-roles-master", "offline_access", "uma_authorization"]

/-- The literal client-role denylist repeated in `extract_detailed_roles`
(src/role_management.py line 58) and `authenticate_user` (src/auth.py line
154): `["uma_protection"]`. -/
def clientRoleDenylist : List String :=
  ["uma_protection"]

/-- The realm-role names surviving the realm denylist, in payload order
(the realm loop of `extract_detailed_roles` / `authenticate_user`). -/
def keptRealmRoles (ti : TokenInfo) : List String :=
  match ti.realm_access with
  | none => []
  | some ra => (ra.roles.getD []).filter (fun n => !(realmRoleDenylist.contains n))

/-- The (client id, kept client-role names) pairs in payload order (the
client loop of `extract_detailed_roles` / `authenticate_user`). -/
def keptClientRoles (ti : TokenInfo) : List (String × List String) :=
  match ti.resource_access with
  | none => []
  | some ras =>
      ras.map (fun p => (p.1, (p.2.roles.getD []).filter (fun n => !(clientRoleDenylist.contains n))))

/-- Function `extract_detailed_roles` from src/role_management.py: realm roles first
(denylist-filtered, wrapped as REALM `UserRole`s with mapped permissions and
description), then client roles per client in map order (denylist-filtered,
wrapped as CLIENT `UserRole`s carrying their client id). -/
def extract_detailed_roles (ti : TokenInfo) : List UserRole :=
  ((keptRealmRoles ti).map (fun n =>
    { name := n
      type := RoleType.REALM
      client_id := none
      permissions := get_role_permissions n RoleType.REALM none
      description := some (get_role_description n RoleType.REALM) }))
  ++ ((keptClientRoles ti).flatMap (fun p =>
    p.2.map (fun n =>
      { name := n
        type := RoleType.CLIENT
        client_id := some p.1
        permissions := get_role_permissions n RoleType.CLIENT (some p.1)
        description := some (get_role_description n RoleType.CLIENT) })))

/-- The permission-set union of `calculate_user_permissions`
(`all_permissions.update(role.permissions)` over a Python set), modelled as
order-preserving de-duplicating accumulation; only membership is ever
observed. -/
def unionPermissions (roles : List UserRole) : List String :=
  roles.foldl (fun acc r => acc ++ r.permissions.filter (fun p => !(acc.contains p))) []

/-- Function `calculate_user_permissions` from src/role_management.py: the union of
the roles' permissions plus the eight access-level flags computed from the
full role objects (the `access_levels` dict literal, lines 147-156). -/
def calculate_user_permissions (roles : List UserRole) : RolePermissions :=
  { roles := roles
    permissions := unionPermissions roles
    access_levels :=
      [("can_view_admin", roles.any (fun r => r.permissions.contains "system:admin")),
       ("can_manage_users", roles.any (fun r => r.permissions.contains "users:manage")),
       ("can_moderate", roles.any (fun r => r.permissions.contains "content:moderate")),
       ("can_view_analytics", roles.any (fun r => r.permissions.contains "analytics:view")),
       ("can_export_data", roles.any (fun r => r.permissions.contains "analytics:export")),
       ("can_access_api",
        roles.any (fun r => r.permissions.contains "api:read" || r.permissions.contains "api:write")),
       ("is_admin", roles.any (fun r => r.name == "admin" && r.type == RoleType.REALM)),
       ("is_moderator", roles.any (fun r => r.name == "moderator"))] }

/-- The role-name flattening of `authenticate_user` (src/auth.py lines
139-155): filtered realm role names followed by filtered client role names,
in payload order.  These are the names stored in the session token's
`roles` claim. -/
def flattenRoles (ti : TokenInfo) : List String :=
  keptRealmRoles ti ++ (keptClientRoles ti).flatMap (fun p => p.2)

/-- The development bypass plus flattening of `authenticate_user`
(src/auth.py lines 157-160): after flattening, if the username is the
literal "37099475" and "user" is absent, "user" is appended. -/
def authenticate_roles (username : String) (ti : TokenInfo) : List String :=
  let roles := flattenRoles ti
  if username == "37099475" && !(roles.contains "user") then roles ++ ["user"] else roles

/-- The `access_levels` dict literal of `get_user_roles_detailed`
(src/main.py lines 195-205), computed from the flattened role-name list
carried in the token. -/
def mainAccessLevels (user_roles : List String) : List (String × Bool) :=
  [("can_view_admin", user_roles.contains "admin"),
   ("can_manage_users", user_roles.contains "admin"),
   ("can_moderate", user_roles.contains "moderator" || user_roles.contains "admin"),
   ("can_view_analytics",
    user_roles.any (fun role => (["admin", "analyst", "dashboard-admin"] : List String).contains role)),
   ("can_export_data",
    user_roles.any (fun role => (["admin", "dashboard-admin"] : List String).contains role)),
   ("can_access_api",
    user_roles.any (fun role => (["admin", "api-consumer", "developer"] : List String).contains role)),
   ("is_admin", user_roles.contains "admin"),
   ("is_moderator", user_roles.contains "moderator"),
   ("is_standard_user", user_roles.contains "user")]

/-- The claim payload embedded in a session token (§3 SessionClaims): the
fields `login` places in `token_data` (src/main.py lines 74-82) plus the
`exp` field added at issuance.  `exp` is optional so that tokens missing an
expiry are representable at verification. -/
structure SessionClaims where
  sub : Option String := none
  username : String := ""
  email : Option String := none
  first_name : Option String := none
  last_name : Option String := none
  roles : List String := []
  user_id : String := ""
  exp : Option Int := none
deriving DecidableEq, Repr

/-- Modelled from the spec: serialization of a claim payload for signing
(python-jose's `jwt.encode`/`jwt.decode` are library code, not part of
src/).  The exact field order is irrelevant; what matters is that the
signature covers the whole payload. -/
def serializeClaims (c : SessionClaims) : String :=
  c.sub.getD "" ++ "|" ++ c.username ++ "|" ++ c.email.getD "" ++ "|" ++
  c.first_name.getD "" ++ "|" ++ c.last_name.getD "" ++ "|" ++
  String.intercalate "," c.roles ++ "|" ++ c.user_id ++ "|" ++
  (match c.exp with
   | none => ""
   | some e => toString e)

/-- Modelled from the spec: the HMAC signature of §4.4 — a deterministic
function of the process-wide secret and the serialized payload.  Signature
validity is checked by recomputation, as in HS256. -/
def macSign (secret : String) (c : SessionClaims) : String :=
  secret ++ "#" ++ serializeClaims c

/-- A signed session token: payload plus signature string. -/
structure SessionToken where
  payload : SessionClaims
  sig : String
deriving DecidableEq, Repr

/-- Function `create_access_token` from src/auth.py lines 108-118, with the library
signing step modelled from the spec (§4.4 `issue`): copy the claim set, set
`exp := now + ttl`, sign the result with the secret. -/
def issueToken (secret : String) (data : SessionClaims) (ttl : Int) (now : Int) : SessionToken :=
  let to_encode : SessionClaims := { data with exp := some (now + ttl) }
  { payload := to_encode, sig := macSign secret to_encode }

/-- The token-verification failure taxonomy of §4.4/§7: `TokenInvalidError`
for a bad signature or unparseable/incomplete structure, `TokenExpiredError`
for a past expiry.  Both surface as HTTP 401 in `get_current_user`. -/
inductive TokenError where
  | TokenInvalidError
  | TokenExpiredError
deriving DecidableEq, Repr

/-- Modelled from the spec: `verify` of §4.4 (python-jose `jwt.decode`
inside `get_current_user`, src/auth.py lines 211-217, is library code, not
part of src/).  The signature is checked by recomputation; a token whose
`exp` is missing is rejected as structurally invalid; a token whose `exp`
is in the past is rejected as expired; otherwise the embedded claims are
returned unchanged. -/
def verifyToken (secret : String) (tok : SessionToken) (now : Int) :
    Except TokenError SessionClaims :=
  if tok.sig = macSign secret tok.payload then
    match tok.payload.exp with
    | none => Except.error TokenError.TokenInvalidError
    | some e => if now > e then Except.error TokenError.TokenExpiredError else Except.ok tok.payload
  else
    Except.error TokenError.TokenInvalidError

/-- A claim payload with its expiry erased, for stating "equal apart from
the expiresAt field". -/
def eraseExp (c : SessionClaims) : SessionClaims :=
  { c with exp := none }

/-- Mutation of one character of a string (used to state the
tampered-signature property): replace the character at index `i`. -/
def mutateAt (s : String) (i : Nat) (c : Char) : String :=
  String.mk (s.data.set i c)

/-- The environment of a password-reset request: whether the module-level
Keycloak admin client initialized (src/auth.py lines 34-54), whether
`get_users({"email": email})` finds a user, and whether the subsequent
`send_update_account` call raises. -/
structure ResetWorld where
  adminInitialized : Bool
  emailExists : Bool
  sendRaises : Bool
deriving DecidableEq, Repr

/-- Function `send_password_reset_email` from src/auth.py lines 243-279: raises an
HTTP 500 (modelled as `Except.error`) when the admin client is missing;
otherwise returns `True` on every path — user not found, send succeeded,
or send raised (the internal `except` swallows the error and returns
`True`). -/
def send_password_reset_email (w : ResetWorld) : Except String Bool :=
  if !w.adminInitialized then
    Except.error "Keycloak admin client not initialized"
  else if !w.emailExists then
    Except.ok true
  else if w.sendRaises then
    Except.ok true
  else
    Except.ok true

/-- The response body of `POST /auth/password-reset`
(`PasswordResetResponse` in src/models.py). -/
structure PasswordResetResponse where
  success : Bool
  message : String
deriving DecidableEq, Repr

/-- The message literal returned by `request_password_reset` on both its
paths (src/main.py lines 127-138). -/
def passwordResetMessage : String :=
  "If the email address exists in our system, a password reset link has been sent."

/-- Function `request_password_reset` from src/main.py lines 120-138: call
`send_password_reset_email` and return the fixed success response; any
exception (including the HTTP 500 raised for a missing admin client, since
`HTTPException` is an `Exception`) is caught and the very same success
response is returned. -/
def request_password_reset (w : ResetWorld) : PasswordResetResponse :=
  match send_password_reset_email w with
  | Except.ok _ => { success := true, message := passwordResetMessage }
  | Except.error _ => { success := true, message := passwordResetMessage }

/-- A row of the `users` table (src/db_models.py `User`): the Keycloak id
column carries a uniqueness constraint.  The UUID column type is modelled
as an opaque string key. -/
structure UserRow where
  id : Nat
  keycloak_id : String
  full_name : String
  phone : Option String := none
  address : Option String := none
  city : Option String := none
  country : Option String := none
  timezone : Option String := none
  created_at : Int := 0
  updated_at : Int := 0
deriving DecidableEq, Repr

/-- Model `UserProfileCreate` from src/models.py: required full name, optional
contact fields. -/
structure UserProfileCreate where
  full_name : String
  phone : Option String := none
  address : Option String := none
  city : Option String := none
  country : Option String := none
  timezone : Option String := none
deriving DecidableEq, Repr

/-- Model `UserProfileUpdate` from src/models.py: every field optional; an
absent-or-null JSON field is `none`. -/
structure UserProfileUpdate where
  full_name : Option String := none
  phone : Option String := none
  address : Option String := none
  city : Option String := none
  country : Option String := none
  timezone : Option String := none
deriving DecidableEq, Repr

/-- Function `get_user_by_keycloak_id` from src/user_service.py: first row whose
`keycloak_id` matches. -/
def get_user_by_keycloak_id (db : List UserRow) (kid : String) : Option UserRow :=
  db.find? (fun u => u.keycloak_id == kid)

/-- Outcome of the INSERT guarded by the `users.keycloak_id` uniqueness
constraint (src/db_models.py line 16): the new store and row, or an
`IntegrityError` when a row with that key already exists. -/
inductive InsertOutcome where
  | ok (db : List UserRow) (row : UserRow)
  | integrityError
deriving DecidableEq, Repr

/-- The storage layer's constraint-checked insert. -/
def dbInsertUser (db : List UserRow) (row : UserRow) : InsertOutcome :=
  if db.any (fun u => u.keycloak_id == row.keycloak_id) then
    InsertOutcome.integrityError
  else
    InsertOutcome.ok (db ++ [row]) row

/-- Function `create_user_profile` from src/user_service.py lines 17-41: build the
row from the request model, insert it; an `IntegrityError` is rolled back
and re-raised as `ValueError("User profile already exists")`.  `nextId` is
the store-assigned primary key and `now` the row timestamps. -/
def create_user_profile (db : List UserRow) (nextId : Nat) (now : Int)
    (kid : String) (pd : UserProfileCreate) : Except String (List UserRow × UserRow) :=
  let row : UserRow :=
    { id := nextId
      keycloak_id := kid
      full_name := pd.full_name
      phone := pd.phone
      address := pd.address
      city := pd.city
      country := pd.country
      timezone := pd.timezone
      created_at := now
      updated_at := now }
  match dbInsertUser db row with
  | InsertOutcome.ok db' r => Except.ok (db', r)
  | InsertOutcome.integrityError => Except.error "User profile already exists"

/-- Client-visible outcome of `POST /users/me`: 201 with the created row,
409 from the handler's pre-check, or 400 from the `ValueError` branch
(src/main.py lines 376-380). -/
inductive CreateProfileResponse where
  | created (row : UserRow)
  | conflict409
  | badRequest400 (msg : String)
deriving DecidableEq, Repr

/-- Function `create_my_profile` from src/main.py lines 345-388.  `s1` is the store
snapshot read by the handler's pre-check (`get_user_by_keycloak_id`) and
`s2` the snapshot at insert time; a sequential request has `s1 = s2`, a
concurrent duplicate creation can commit a row between the two, making
`s1` ≠ `s2`.  The pre-check yields HTTP 409; the constraint path surfaces
as `ValueError` and is mapped to HTTP 400. -/
def create_my_profile (s1 s2 : List UserRow) (nextId : Nat) (now : Int)
    (kid : String) (pd : UserProfileCreate) : CreateProfileResponse × List UserRow :=
  if (get_user_by_keycloak_id s1 kid).isSome then
    (CreateProfileResponse.conflict409, s2)
  else
    match create_user_profile s2 nextId now kid pd with
    | Except.ok (db', row) => (CreateProfileResponse.created row, db')
    | Except.error msg => (CreateProfileResponse.badRequest400 msg, s2)

/-- The per-identity uniqueness invariant of the `users` table: no two rows
share a `keycloak_id`. -/
def uniqueProfiles (db : List UserRow) : Prop :=
  (db.map (fun u => u.keycloak_id)).Nodup

instance (db : List UserRow) : Decidable (uniqueProfiles db) := by
  unfold uniqueProfiles
  infer_instance

/-- Whether a patch makes at least one ORM attribute dirty — exactly when
SQLAlchemy's flush emits an UPDATE statement (and hence when the `onupdate`
timestamp of src/db_models.py line 24 fires).  An attribute is dirty only
when the assigned value differs from the loaded value: the unit of work's
is_equal check drops assignments of an equal value, so a patch whose
non-null fields all match the stored values flushes nothing. -/
def patchDirties (user : UserRow) (pd : UserProfileUpdate) : Bool :=
  (pd.full_name.any (fun v => v != user.full_name)) ||
  (pd.phone.any (fun v => some v != user.phone)) ||
  (pd.address.any (fun v => some v != user.address)) ||
  (pd.city.any (fun v => some v != user.city)) ||
  (pd.country.any (fun v => some v != user.country)) ||
  (pd.timezone.any (fun v => some v != user.timezone))

/-- Function `update_user_profile` from src/user_service.py lines 44-67: each field
is overwritten only when the patch carries a non-null value for it.
`updated_at` is the `onupdate=func.now()` column of src/db_models.py line
24: it is refreshed when the commit flushes an UPDATE, which happens only
when at least one assigned value differs from the stored value
(`patchDirties`); a patch assigning nothing, or assigning only values equal
to the stored ones, flushes nothing and leaves the timestamp untouched. -/
def update_user_profile (now : Int) (user : UserRow) (pd : UserProfileUpdate) : UserRow :=
  { user with
    full_name :=
      match pd.full_name with
      | some v => v
      | none => user.full_name
    phone :=
      match pd.phone with
      | some v => some v
      | none => user.phone
    address :=
      match pd.address with
      | some v => some v
      | none => user.address
    city :=
      match pd.city with
      | some v => some v
      | none => user.city
    country :=
      match pd.country with
      | some v => some v
      | none => user.country
    timezone :=
      match pd.timezone with
      | some v => some v
      | none => user.timezone
    updated_at := if patchDirties user pd then now else user.updated_at }

/-- The raw realm-role list of a payload before filtering (empty when the
`realm_access` section or its "roles" key is absent). -/
def rawRealmRoles (ti : TokenInfo) : List String :=
  match ti.realm_access with
  | none => []
  | some ra => ra.roles.getD []

/-- The raw (client id, access block) pairs of a payload (empty when the
`resource_access` section is absent). -/
def rawClientBlocks (ti : TokenInfo) : List (String × AccessBlock) :=
  match ti.resource_access with
  | none => []
  | some ras => ras

/-- A payload granting the single realm role "admin". -/
def tiAdminRealm : TokenInfo :=
  { realm_access := some { roles := some ["admin"] } }

/-- The payload of the spec's scenario:
realm roles ["admin", "default-roles-master"]. -/
def tiSpecScenario : TokenInfo :=
  { realm_access := some { roles := some ["admin", "default-roles-master"] } }

/-- A payload whose only realm role matches the reserved pattern
"default-roles-*" but is not the literal "default-roles-master". -/
def tiDefaultRolesAstro : TokenInfo :=
  { realm_access := some { roles := some ["default-roles-astro"] } }

/-- A payload carrying only names from the literal denylists, in their
respective positions. -/
def tiReservedOnly : TokenInfo :=
  { realm_access := some { roles := some ["offline_access", "uma_authorization"] }
    resource_access := some [("client-a", { roles := some ["uma_protection"] })] }

/-- A concrete claim payload for token witnesses. -/
def demoClaims : SessionClaims :=
  { sub := some "37099475"
    username := "37099475"
    roles := ["user"]
    user_id := "abc-123" }

/-- A concrete profile row for the duplicate-creation scenarios. -/
def rowAnn : UserRow :=
  { id := 1, keycloak_id := "kc-1", full_name := "Ann" }

/-- A concrete second-creation request for the same identity. -/
def pdBob : UserProfileCreate :=
  { full_name := "Bob" }

/-- The existing row of the spec's update scenario: city "A", last updated
at time 5. -/
def uCityA : UserRow :=
  { id := 1, keycloak_id := "kc-9", full_name := "Ann", city := some "A", updated_at := 5 }

/-- The patch of the spec's update scenario: city null, country "B". -/
def patchCountryB : UserProfileUpdate :=
  { country := some "B" }

/-- A patch with every field null. -/
def emptyPatch : UserProfileUpdate :=
  {}

/-- A patch assigning the city a value equal to the one `uCityA` already
stores. -/
def patchCitySameA : UserProfileUpdate :=
  { city := some "A" }

/-! ## Helper lemmas -/

/-- Association-list lookup misses when the key is not among the keys. -/
theorem lookupKey_eq_none {α β : Type} [DecidableEq α] (a : α) (l : List (α × β))
    (h : a ∉ l.map Prod.fst) : lookupKey a l = none := by
  induction l with
  | nil => rfl
  | cons p t ih =>
    obtain ⟨k, v⟩ := p
    simp only [List.map_cons, List.mem_cons] at h
    push_neg at h
    simp only [lookupKey]
    rw [if_neg (fun hk => h.1 hk.symm), ih h.2]

/-- Membership of a name in the projected name list coincides with an
existence check over the role objects. -/
theorem contains_map_name (l : List UserRole) (s : String) :
    (l.map (fun r => r.name)).contains s = l.any (fun r => r.name == s) := by
  induction l with
  | nil => rfl
  | cons h t ih =>
    rw [List.map_cons, List.contains_cons, List.any_cons, ih]
    by_cases hs : s = h.name
    · rw [hs]
    · rw [beq_eq_false_iff_ne.mpr hs, beq_eq_false_iff_ne.mpr (Ne.symm hs)]

/-- The role names produced by the full extraction are exactly the
flattened role names of `authenticate_user`. -/
theorem extract_names_eq_flatten (ti : TokenInfo) :
    (extract_detailed_roles ti).map (fun r => r.name) = flattenRoles ti := by
  unfold extract_detailed_roles flattenRoles
  rw [List.map_append, List.map_map, List.map_flatMap]
  congr 1
  · exact List.map_id' _
  · apply List.flatMap_congr
    intro p _
    rw [List.map_map]
    exact List.map_id' _

/-- Reading the "is_moderator" flag out of the full-claims access-level
dictionary. -/
theorem calc_is_moderator (roles : List UserRole) :
    lookupKey "is_moderator" (calculate_user_permissions roles).access_levels
      = some (roles.any (fun r => r.name == "moderator")) := by
  simp [calculate_user_permissions, lookupKey]

/-- Reading the "is_moderator" flag out of the flattened-path access-level
dictionary. -/
theorem main_is_moderator (names : List String) :
    lookupKey "is_moderator" (mainAccessLevels names) = some (names.contains "moderator") := by
  simp [mainAccessLevels, lookupKey]

/-! ## Claims -/

/-- C1: the claim that the full-claims path and the flattened-role-name
path compute equal access-level maps on every payload is false: on the
payload granting the single realm role "admin", the shared flag
"can_moderate" is `false` on the full-claims path (the admin role's mapped
permissions do not contain "content:moderate" and
`calculate_user_permissions` has no admin fallback) but `true` on the
flattened path (src/main.py line 198 tests for the name "admin"). -/
theorem c1_counterexample :
    lookupKey "can_moderate"
        (calculate_user_permissions (extract_detailed_roles tiAdminRealm)).access_levels
      = some false ∧
    lookupKey "can_moderate" (mainAccessLevels (flattenRoles tiAdminRealm)) = some true := by
  decide

/-- C1 (amended): of the eight access-level flags defined by both paths,
only "is_moderator" provably agrees on every introspection payload; each of
the other seven diverges on some payload. -/
theorem c1_paths_agree_on_is_moderator (ti : TokenInfo) :
    lookupKey "is_moderator"
        (calculate_user_permissions (extract_detailed_roles ti)).access_levels
      = lookupKey "is_moderator" (mainAccessLevels (flattenRoles ti)) := by
  rw [calc_is_moderator, main_is_moderator, ← extract_names_eq_flatten, contains_map_name]

/-- C2: on the scenario payload the extraction and the permission union
behave as claimed, but the aggregated "can_moderate" flag is `false`, not
`true`: `calculate_user_permissions` derives it solely from
"content:moderate" membership and the admin role's permission set does not
contain that permission — the admin fallback exists only on the flattened
path.  This counterexample refutes the claim's `can_moderate == true`
conjunct. -/
theorem c2_counterexample :
    lookupKey "can_moderate"
        (calculate_user_permissions (extract_detailed_roles tiSpecScenario)).access_levels
      = some false := by
  decide

/-- C2 (amended): for the payload
realm_access.roles = ["admin", "default-roles-master"], extraction yields
exactly one RoleAssertion named "admin" with Realm scope, the permission
union contains "system:admin", `is_admin` is true, and `can_moderate` is
false. -/
theorem c2_scenario_admin_realm :
    (extract_detailed_roles tiSpecScenario).map (fun r => (r.name, r.type, r.client_id))
      = [("admin", RoleType.REALM, none)] ∧
    "system:admin" ∈ (calculate_user_permissions (extract_detailed_roles tiSpecScenario)).permissions ∧
    lookupKey "is_admin"
        (calculate_user_permissions (extract_detailed_roles tiSpecScenario)).access_levels
      = some true ∧
    lookupKey "can_moderate"
        (calculate_user_permissions (extract_detailed_roles tiSpecScenario)).access_levels
      = some false := by
  decide

/-- C3: the claim fails because the reserved-name check is a literal list,
not the pattern "default-roles-*": the realm role "default-roles-astro"
matches the reserved pattern yet is materialized as a RoleAssertion. -/
theorem c3_counterexample :
    extract_detailed_roles tiDefaultRolesAstro ≠ [] ∧
    (extract_detailed_roles tiDefaultRolesAstro).map (fun r => r.name)
      = ["default-roles-astro"] := by
  decide

/-- C3 (amended): for every payload whose realm-role list contains only
names of the literal realm denylist ("default-roles-master",
"offline_access", "uma_authorization") and whose client-role lists contain
only names of the literal client denylist ("uma_protection"), extraction
returns the empty sequence. -/
theorem c3_reserved_only_extracts_nothing (ti : TokenInfo)
    (hre : ∀ n ∈ rawRealmRoles ti, n ∈ realmRoleDenylist)
    (hcl : ∀ p ∈ rawClientBlocks ti, ∀ n ∈ p.2.roles.getD [], n ∈ clientRoleDenylist) :
    extract_detailed_roles ti = [] := by
  have h1 : keptRealmRoles ti = [] := by
    unfold keptRealmRoles
    unfold rawRealmRoles at hre
    cases hra : ti.realm_access with
    | none => rfl
    | some ra =>
      rw [hra] at hre
      apply List.filter_eq_nil_iff.mpr
      intro n hn
      simpa using hre n hn
  have h2 : ∀ p ∈ keptClientRoles ti, p.2 = [] := by
    unfold keptClientRoles
    unfold rawClientBlocks at hcl
    cases hras : ti.resource_access with
    | none => simp
    | some ras =>
      rw [hras] at hcl
      intro p hp
      simp only [List.mem_map] at hp
      obtain ⟨q, hq, hpq⟩ := hp
      subst hpq
      apply List.filter_eq_nil_iff.mpr
      intro n hn
      simpa using hcl q hq n hn
  unfold extract_detailed_roles
  rw [h1]
  simp only [List.map_nil, List.nil_append]
  apply List.flatMap_eq_nil_iff.mpr
  intro p hp
  rw [h2 p hp]
  rfl

/-- C3 witness: a payload carrying only literal-denylist names in both
positions extracts to the empty sequence. -/
theorem c3_witness : extract_detailed_roles tiReservedOnly = [] :=
  c3_reserved_only_extracts_nothing tiReservedOnly (by decide) (by decide)

/-- C4: the claim fails on the description: for the table-miss role
"analyst" the generated description is "Analyst role"
(`role_name.title() + " role"`), not the claimed "analyst role"
(the role name followed by " role"). -/
theorem c4_counterexample :
    get_role_permissions "analyst" RoleType.REALM none = [] ∧
    get_role_description "analyst" RoleType.REALM = "Analyst role" ∧
    "Analyst role" ≠ "analyst role" := by
  decide

/-- C4 (amended): for every role key absent from the static table, the
permission lookup returns the empty set and the description lookup returns
the title-cased role name followed by " role"; neither lookup can fail
(both are total functions). -/
theorem c4_table_miss_defaults (name : String) (ty : RoleType) (cid : Option String)
    (h : (name, ty) ∉ ROLE_PERMISSIONS.map Prod.fst) :
    get_role_permissions name ty cid = [] ∧
    get_role_description name ty = pyTitle name ++ " role" := by
  have hkeys : ROLE_DESCRIPTIONS.map Prod.fst = ROLE_PERMISSIONS.map Prod.fst := by decide
  have hperm := lookupKey_eq_none (name, ty) ROLE_PERMISSIONS h
  have hdesc := lookupKey_eq_none (name, ty) ROLE_DESCRIPTIONS (by rw [hkeys]; exact h)
  exact ⟨by simp [get_role_permissions, hperm], by simp [get_role_description, hdesc]⟩

/-- C4 witness: the table-miss defaults at the concrete role "guest". -/
theorem c4_witness :
    get_role_permissions "guest" RoleType.REALM none = [] ∧
    get_role_description "guest" RoleType.REALM = pyTitle "guest" ++ " role" :=
  c4_table_miss_defaults "guest" RoleType.REALM none (by decide)

/-- Mutating one character of a string yields a different string. -/
theorem mutateAt_ne (s : String) (i : Nat) (c : Char) (hi : i < s.data.length)
    (hc : c ≠ s.data.get ⟨i, hi⟩) : mutateAt s i c ≠ s := by
  intro h
  apply hc
  have hd : s.data.set i c = s.data := congrArg String.data h
  have hset : (s.data.set i c).getD i 'A' = c := by
    rw [List.getD_eq_getElem _ _ (by simpa using hi)]
    exact List.getElem_set_self _
  have horig : s.data.getD i 'A' = s.data.get ⟨i, hi⟩ := by
    rw [List.getD_eq_getElem _ _ hi, List.get_eq_getElem]
  rw [← hset, hd, horig]

/-- C5: verification rejects every token that is missing an expiry, every
token issued already expired (ttl = -1), and every token whose signature
has one mutated character; the first and third fail with
`TokenInvalidError`, the second with `TokenExpiredError`, and no claims are
returned in any of the three cases. -/
theorem c5_verification_rejections (secret : String) (now : Int) :
    (∀ tok : SessionToken, tok.payload.exp = none →
      verifyToken secret tok now = Except.error TokenError.TokenInvalidError) ∧
    (∀ claims : SessionClaims,
      verifyToken secret (issueToken secret claims (-1) now) now
        = Except.error TokenError.TokenExpiredError) ∧
    (∀ (p : SessionClaims) (i : Nat) (c : Char) (hi : i < (macSign secret p).data.length),
      c ≠ (macSign secret p).data.get ⟨i, hi⟩ →
      verifyToken secret { payload := p, sig := mutateAt (macSign secret p) i c } now
        = Except.error TokenError.TokenInvalidError) := by
  refine ⟨?_, ?_, ?_⟩
  · intro tok hexp
    unfold verifyToken
    by_cases hs : tok.sig = macSign secret tok.payload
    · rw [if_pos hs, hexp]
    · rw [if_neg hs]
  · intro claims
    unfold verifyToken issueToken
    rw [if_pos rfl]
    simp only
    rw [if_pos (by omega)]
  · intro p i c hi hc
    unfold verifyToken
    rw [if_neg (mutateAt_ne (macSign secret p) i c hi hc)]

/-- C5 witness: the rejections at a concrete secret, claim set and time:
the token issued with ttl = -1 at time 100 is expired at time 100, and the
issued signature with its first character overwritten by 'Z' is invalid. -/
theorem c5_witness :
    verifyToken "secret-key" (issueToken "secret-key" demoClaims (-1) 100) 100
      = Except.error TokenError.TokenExpiredError ∧
    verifyToken "secret-key"
        { payload := demoClaims, sig := mutateAt (macSign "secret-key" demoClaims) 0 'Z' } 100
      = Except.error TokenError.TokenInvalidError := by
  have h := c5_verification_rejections "secret-key" 100
  exact ⟨h.2.1 demoClaims, h.2.2 demoClaims 0 'Z' (by decide) (by decide)⟩

/-- C6: verifying a token immediately after issuance (at any time not past
`now + ttl`) succeeds and returns the issued claim set, which differs from
the input claim set only in its `exp` field. -/
theorem c6_issue_verify_roundtrip (secret : String) (claims : SessionClaims)
    (ttl now t : Int) (hpos : 0 < ttl) (ht : t ≤ now + ttl) :
    verifyToken secret (issueToken secret claims ttl now) t
      = Except.ok { claims with exp := some (now + ttl) } ∧
    eraseExp { claims with exp := some (now + ttl) } = eraseExp claims := by
  constructor
  · unfold verifyToken issueToken
    rw [if_pos rfl]
    simp only
    rw [if_neg (by omega)]
  · rfl

/-- C6 witness: the round trip at a concrete secret, claim set, ttl 60,
issuance time 100 and verification time 130. -/
theorem c6_witness :
    verifyToken "secret-key" (issueToken "secret-key" demoClaims 60 100) 130
      = Except.ok { demoClaims with exp := some 160 } ∧
    eraseExp { demoClaims with exp := some (160 : Int) } = eraseExp demoClaims := by
  have h := c6_issue_verify_roundtrip "secret-key" demoClaims 60 100 130 (by norm_num) (by norm_num)
  simpa using h

/-- C7: the password-reset endpoint returns the identical, fixed
success-true response in every environment — whether or not an account
with the email exists, whether the upstream send raises, and even when the
admin client never initialized — so no client-visible output reveals
account existence. -/
theorem c7_password_reset_no_leak (w w' : ResetWorld) :
    request_password_reset w = request_password_reset w' ∧
    (request_password_reset w).success = true := by
  have hconst : ∀ v : ResetWorld,
      request_password_reset v = { success := true, message := passwordResetMessage } := by
    intro v
    unfold request_password_reset
    cases send_password_reset_email v with
    | ok b => rfl
    | error e => rfl
  rw [hconst w, hconst w']
  exact ⟨rfl, rfl⟩

/-- A constraint-guarded insert into a store whose rows have pairwise
distinct identities preserves that uniqueness. -/
theorem dbInsertUser_preserves_unique (db : List UserRow) (row : UserRow) (db' : List UserRow)
    (r : UserRow) (hu : uniqueProfiles db) (h : dbInsertUser db row = InsertOutcome.ok db' r) :
    uniqueProfiles db' := by
  unfold dbInsertUser at h
  by_cases hex : db.any (fun u => u.keycloak_id == row.keycloak_id) = true
  · rw [if_pos hex] at h
    exact absurd h (by simp)
  · rw [if_neg hex] at h
    obtain ⟨hdb, _⟩ := InsertOutcome.ok.inj h
    subst hdb
    unfold uniqueProfiles at hu ⊢
    rw [List.map_append, List.nodup_append]
    refine ⟨hu, by simp, ?_⟩
    intro x hx hx'
    simp only [List.map_cons, List.map_nil, List.mem_singleton] at hx'
    subst hx'
    apply hex
    rw [List.any_eq_true]
    simp only [List.mem_map] at hx
    obtain ⟨u, hu', hname⟩ := hx
    exact ⟨u, hu', by simp [hname]⟩

/-- C8: the claim fails on its enforcement mechanism: the HTTP 409 of
`POST /users/me` comes from the handler's application-level pre-check, not
from the storage constraint.  When the duplicate row appears only between
the pre-check and the insert (the race the constraint is supposed to
close), the constraint's `IntegrityError` is re-raised as `ValueError` and
mapped to HTTP 400, not 409: here the identity "kc-1" already has a record
at insert time, yet the response is 400. -/
theorem c8_counterexample :
    (create_my_profile [] [rowAnn] 2 0 "kc-1" pdBob).1
      = CreateProfileResponse.badRequest400 "User profile already exists" ∧
    (create_my_profile [] [rowAnn] 2 0 "kc-1" pdBob).1 ≠ CreateProfileResponse.conflict409 := by
  decide

/-- C8 (amended): when the pre-check sees the existing record (the
sequential case, both snapshots equal), creation fails with HTTP 409 and
the store is unchanged; and every outcome of the endpoint preserves the
at-most-one-record-per-identity invariant, which the storage layer's
uniqueness constraint enforces on the insert path. -/
theorem c8_duplicate_conflict_and_uniqueness :
    (∀ (s : List UserRow) (kid : String) (pd : UserProfileCreate) (nid : Nat) (now : Int),
      (get_user_by_keycloak_id s kid).isSome = true →
      create_my_profile s s nid now kid pd = (CreateProfileResponse.conflict409, s)) ∧
    (∀ (s1 s2 : List UserRow) (kid : String) (pd : UserProfileCreate) (nid : Nat) (now : Int),
      uniqueProfiles s2 →
      uniqueProfiles (create_my_profile s1 s2 nid now kid pd).2) := by
  constructor
  · intro s kid pd nid now h
    unfold create_my_profile
    rw [if_pos h]
  · intro s1 s2 kid pd nid now hu
    unfold create_my_profile
    by_cases h1 : (get_user_by_keycloak_id s1 kid).isSome = true
    · rw [if_pos h1]
      exact hu
    · rw [if_neg h1]
      unfold create_user_profile
      cases hins : dbInsertUser s2
          { id := nid, keycloak_id := kid, full_name := pd.full_name, phone := pd.phone,
            address := pd.address, city := pd.city, country := pd.country,
            timezone := pd.timezone, created_at := now, updated_at := now } with
      | ok db' r =>
        simp only [hins]
        exact dbInsertUser_preserves_unique s2 _ db' r hu hins
      | integrityError =>
        simp only [hins]
        exact hu

/-- C8 witness: the sequential duplicate creation at a concrete store and
identity yields 409 with the store unchanged, and the race-window creation
preserves per-identity uniqueness. -/
theorem c8_witness :
    create_my_profile [rowAnn] [rowAnn] 2 0 "kc-1" pdBob
      = (CreateProfileResponse.conflict409, [rowAnn]) ∧
    uniqueProfiles (create_my_profile [] [rowAnn] 2 0 "kc-1" pdBob).2 := by
  have h := c8_duplicate_conflict_and_uniqueness
  exact ⟨h.1 [rowAnn] "kc-1" pdBob 2 0 (by decide), h.2 [] [rowAnn] "kc-1" pdBob 2 0 (by decide)⟩

/-- C9: the claim that `updatedAt` is always refreshed fails on the patch
with every field null: no attribute is assigned, so the commit flushes no
UPDATE, the `onupdate` timestamp never fires, and the row — including
`updated_at`, which stays 5 rather than becoming the update time 10 — is
returned unchanged. -/
theorem c9_counterexample :
    update_user_profile 10 uCityA emptyPatch = uCityA ∧ uCityA.updated_at ≠ 10 := by
  decide

/-- C9 (amended): the update overwrites exactly the non-null patch fields
(each null or absent field keeps its prior value), never touches the id,
identity key or creation time, and refreshes `updated_at` exactly when the
patch assigns at least one value differing from the stored value — a patch
whose non-null fields all equal the stored values (in particular a patch
with every field null) leaves `updated_at` unchanged. -/
theorem c9_partial_update (now : Int) (u : UserRow) (pd : UserProfileUpdate) :
    ((pd.full_name = none → (update_user_profile now u pd).full_name = u.full_name) ∧
     (∀ v, pd.full_name = some v → (update_user_profile now u pd).full_name = v)) ∧
    ((pd.phone = none → (update_user_profile now u pd).phone = u.phone) ∧
     (∀ v, pd.phone = some v → (update_user_profile now u pd).phone = some v)) ∧
    ((pd.address = none → (update_user_profile now u pd).address = u.address) ∧
     (∀ v, pd.address = some v → (update_user_profile now u pd).address = some v)) ∧
    ((pd.city = none → (update_user_profile now u pd).city = u.city) ∧
     (∀ v, pd.city = some v → (update_user_profile now u pd).city = some v)) ∧
    ((pd.country = none → (update_user_profile now u pd).country = u.country) ∧
     (∀ v, pd.country = some v → (update_user_profile now u pd).country = some v)) ∧
    ((pd.timezone = none → (update_user_profile now u pd).timezone = u.timezone) ∧
     (∀ v, pd.timezone = some v → (update_user_profile now u pd).timezone = some v)) ∧
    ((patchDirties u pd = true → (update_user_profile now u pd).updated_at = now) ∧
     (patchDirties u pd = false → (update_user_profile now u pd).updated_at = u.updated_at)) ∧
    ((update_user_profile now u pd).id = u.id ∧
     (update_user_profile now u pd).keycloak_id = u.keycloak_id ∧
     (update_user_profile now u pd).created_at = u.created_at) := by
  refine ⟨⟨?_, ?_⟩, ⟨?_, ?_⟩, ⟨?_, ?_⟩, ⟨?_, ?_⟩, ⟨?_, ?_⟩, ⟨?_, ?_⟩, ⟨?_, ?_⟩, ?_, ?_, ?_⟩
  · intro h; simp [update_user_profile, h]
  · intro v h; simp [update_user_profile, h]
  · intro h; simp [update_user_profile, h]
  · intro v h; simp [update_user_profile, h]
  · intro h; simp [update_user_profile, h]
  · intro v h; simp [update_user_profile, h]
  · intro h; simp [update_user_profile, h]
  · intro v h; simp [update_user_profile, h]
  · intro h; simp [update_user_profile, h]
  · intro v h; simp [update_user_profile, h]
  · intro h; simp [update_user_profile, h]
  · intro v h; simp [update_user_profile, h]
  · intro h; simp [update_user_profile, h]
  · intro h; simp [update_user_profile, h]
  · simp [update_user_profile]
  · simp [update_user_profile]
  · simp [update_user_profile]

/-- C9 witness: the spec's scenario — existing city "A", patch with city
null and country "B" at time 10 — leaves the city unchanged, sets the
country, and refreshes the timestamp (the country assignment differs from
the stored null); and the patch re-assigning the already-stored city "A"
dirties nothing and leaves the timestamp unchanged. -/
theorem c9_witness :
    (update_user_profile 10 uCityA patchCountryB).city = some "A" ∧
    (update_user_profile 10 uCityA patchCountryB).country = some "B" ∧
    (update_user_profile 10 uCityA patchCountryB).updated_at = 10 ∧
    (update_user_profile 10 uCityA patchCitySameA).updated_at = uCityA.updated_at := by
  obtain ⟨hfull, hphone, haddr, hcity, hcountry, htz, htime, hframe⟩ :=
    c9_partial_update 10 uCityA patchCountryB
  obtain ⟨hfull2, hphone2, haddr2, hcity2, hcountry2, htz2, htime2, hframe2⟩ :=
    c9_partial_update 10 uCityA patchCitySameA
  exact ⟨(hcity.1 rfl).trans rfl, hcountry.2 "B" rfl, htime.1 (by decide), htime2.2 (by decide)⟩

/-- C10: for the literal username "37099475", the role list computed by
`authenticate_user` always contains "user" whatever the identity provider
granted; in particular, whenever the flattened roles lack "user" it is
appended. -/
theorem c10_dev_bypass_always_grants_user (ti : TokenInfo) :
    "user" ∈ authenticate_roles "37099475" ti ∧
    ("user" ∉ flattenRoles ti →
      authenticate_roles "37099475" ti = flattenRoles ti ++ ["user"]) := by
  unfold authenticate_roles
  by_cases h : "user" ∈ flattenRoles ti
  · constructor
    · simp [h]
    · intro hn
      exact absurd h hn
  · constructor
    · simp [h]
    · intro _
      simp [h]

/-- C10 witness: on the payload granting only the realm role "admin", the
development user's role list is the flattened list with "user" appended. -/
theorem c10_witness :
    "user" ∈ authenticate_roles "37099475" tiAdminRealm ∧
    authenticate_roles "37099475" tiAdminRealm = flattenRoles tiAdminRealm ++ ["user"] := by
  have h := c10_dev_bypass_always_grants_user tiAdminRealm
  exact ⟨h.1, h.2 (by decide)⟩

end KeycloakAuth
